import Mathlib

/-!
Shallow embedding of the sensor-tolerance application (src/app.py).

The application has three parts that the claims exercise:
* a free-text parsing loop that turns lines "valor_medido,error" into records,
* a metrological calculator (`calcular_tolerancia_metrologica`) built on the
  sample standard deviation (ddof = 1) and GUM-style combination,
* a normative calculator (`SensorCalibrationAnalyzer.calcular_tolerancia_transmision`)
  built on the population standard deviation (ddof = 0) and a parameter table.

Numeric values are modelled over the reals; the IEEE NaN produced by
numpy's std on a one-element sample with ddof = 1 is modelled by `Option ℝ`
with `none` playing the role of NaN (NaN propagates through every arithmetic
operation the code applies afterwards, which `Option.map` mirrors exactly).
The parsing layer is modelled executably over the rationals.
-/

namespace Tolerancias

/-! ### Parsing layer (module-level loop, src/app.py lines 246-261) -/

/-- A decimal literal `num / 10 ^ scale`, the exact value denoted by a
decimal token such as "25.0" or "-0.1". Keeping the numerator and the
power-of-ten scale unnormalized keeps this layer kernel-executable. -/
structure Decimal where
  num : ℤ
  scale : ℕ
deriving DecidableEq

/-- The rational value of a decimal literal. -/
def Decimal.toRat (d : Decimal) : ℚ :=
  (d.num : ℚ) / (10 : ℚ) ^ d.scale

/-- One parsed calibration record, as appended by
`datos.append({'valor_medido': valor_medido, 'error': error})`. -/
structure Dato where
  valor_medido : Decimal
  error : Decimal
deriving DecidableEq

/-- Splits a character list at every occurrence of `sep`; models Python's
`str.split` (for the comma) and `str.splitlines` (for the newline). -/
def splitOnChar (sep : Char) : List Char → List (List Char)
  | [] => [[]]
  | c :: resto =>
    let r := splitOnChar sep resto
    if c = sep then [] :: r
    else
      match r with
      | [] => [[c]]
      | h :: t => (c :: h) :: t

/-- Models Python's `str.strip`: removes leading and trailing whitespace. -/
def trimChars (l : List Char) : List Char :=
  ((l.dropWhile Char.isWhitespace).reverse.dropWhile Char.isWhitespace).reverse

/-- Value of a digit string, most significant first. -/
def digitsToNat (l : List Char) : ℕ :=
  l.foldl (fun n c => 10 * n + (c.toNat - 48)) 0

/-- Models Python's `float()` on an unsigned decimal literal: digits with at
most one decimal point and at least one digit overall ("25", "25.0", ".5",
"5."). Exponent, infinity and nan forms never occur in this application's
inputs and are not modelled. -/
def parseUnsignedFloat (l : List Char) : Option Decimal :=
  match splitOnChar '.' l with
  | [ip] =>
    if !ip.isEmpty && ip.all Char.isDigit then some ⟨digitsToNat ip, 0⟩ else none
  | [ip, fp] =>
    if !(ip.isEmpty && fp.isEmpty) && ip.all Char.isDigit && fp.all Char.isDigit then
      some ⟨digitsToNat ip * 10 ^ fp.length + digitsToNat fp, fp.length⟩
    else none
  | _ => none

/-- Models Python's `float()`: strips whitespace, then an optional sign
followed by an unsigned decimal literal. Returns `none` where Python raises
`ValueError`. -/
def parseFloat (s : List Char) : Option Decimal :=
  match trimChars s with
  | '-' :: resto => (parseUnsignedFloat resto).map (fun d => ⟨-d.num, d.scale⟩)
  | '+' :: resto => parseUnsignedFloat resto
  | resto => parseUnsignedFloat resto

/-- Outcome of the module-level parsing loop:
* `aborted`: a `float()` conversion raised `ValueError`, the exception
  escaped to the outer `except`, and every parsed record is discarded;
* `done datos malformed`: the loop finished with the records `datos`;
  `malformed = true` records that some line did not split into exactly two
  comma-separated parts, so `st.error` was shown and the loop `break`-ed —
  note the records parsed before that line are KEPT in `datos`. -/
inductive ParseOutcome where
  | aborted : String → ParseOutcome
  | done : List Dato → Bool → ParseOutcome
deriving DecidableEq

/-- The body of `for linea in calibracion_text.splitlines()` (src/app.py
lines 249-257): strip the line, skip it if blank, split on the comma,
`break` with an error message if the split does not have exactly two parts,
convert both parts with `float` (a failure raises and aborts everything),
and append the record. -/
def procesar_lineas : List (List Char) → ParseOutcome
  | [] => .done [] false
  | linea :: resto =>
    let l := trimChars linea
    if l.isEmpty then procesar_lineas resto
    else
      match splitOnChar ',' l with
      | [a, b] =>
        match parseFloat a, parseFloat b with
        | some v, some e =>
          match procesar_lineas resto with
          | .aborted m => .aborted m
          | .done datos mal => .done (⟨v, e⟩ :: datos) mal
        | _, _ => .aborted "could not convert string to float"
      | _ => .done [] true

/-- The whole parsing pass over the text area contents. -/
def procesar_datos (texto : String) : ParseOutcome :=
  procesar_lineas (splitOnChar '\n' texto.data)

/-- Whether the app goes on to call the two calculators (src/app.py lines
243-278): the text must be non-blank, no `float()` conversion may raise,
and at least one record must have been parsed — even when a malformed line
was reported, the records parsed before it ARE used for computation. -/
def computa (texto : String) : Bool :=
  if (trimChars texto.data).isEmpty then false
  else
    match procesar_datos texto with
    | .aborted _ => false
    | .done datos _ => !datos.isEmpty

/-! ### Shared numeric helpers -/

noncomputable section

/-- Python's `round(x, 2)`: round to the nearest multiple of 1/100.
Mathlib's `round` rounds half away from zero upward while Python rounds
half to even; no value in this development ever falls on a tie. -/
def round2 (x : ℝ) : ℝ := (round (x * 100) : ℤ) / 100

/-- Python's `round(x, 4)`: round to the nearest multiple of 1/10000. -/
def round4 (x : ℝ) : ℝ := (round (x * 10000) : ℤ) / 10000

/-- `np.mean(errores)`. -/
def mean (l : List ℝ) : ℝ := l.sum / (l.length : ℝ)

/-- Sum of squared deviations from the mean, the quantity inside numpy's
standard deviation. -/
def sumSqDev (l : List ℝ) : ℝ := (l.map (fun x => (x - mean l) ^ 2)).sum

/-- `np.std(l, ddof=d)`: the square root of the mean squared deviation with
denominator `n - ddof`. When `n ≤ ddof` numpy divides zero (or an empty
mean) by zero and yields NaN with a warning, modelled by `none`. -/
def nstd (l : List ℝ) (ddof : ℕ) : Option ℝ :=
  if l.length ≤ ddof then none
  else some (Real.sqrt (sumSqDev l / ((l.length - ddof : ℕ) : ℝ)))

/-- `np.std(errores)` with the default `ddof=0` (population standard
deviation), as the normative calculator uses it on a sample that the
empty-sample guard has already ensured is non-empty. -/
def np_std (l : List ℝ) : ℝ := Real.sqrt (sumSqDev l / (l.length : ℝ))

/-- `np.max(np.abs(errores))`. On a non-empty list every mapped value is
non-negative, so folding `max` from 0 returns the largest absolute value. -/
def maxAbs (l : List ℝ) : ℝ := (l.map (fun x => |x|)).foldr max 0

/-! ### Metrological calculator (src/app.py lines 7-71) -/

/-- `calcular_tolerancia_sensor` (src/app.py lines 7-13): sensor tolerance
for a temperature sensor, growing with the largest magnitude in range. -/
def calcular_tolerancia_sensor (rango_min rango_max : ℝ) : ℝ :=
  0.15 + 0.0020 * max |rango_min| |rango_max|

/-- The sensor-tolerance dispatch inside `calcular_tolerancia_metrologica`
(src/app.py lines 51-56): the temperature formula for `'temperatura'`,
otherwise the hard-coded default 0.5. The code accepts no override
parameter for other sensor types. -/
def tolerancia_sensor_dispatch (sensor_type : String) (rango_min rango_max : ℝ) : ℝ :=
  if sensor_type = "temperatura" then calcular_tolerancia_sensor rango_min rango_max
  else 0.5

/-- Modelled from the spec: the sensor-tolerance contract of spec section 4.1,
whose optional `override` parameter is absent from the code. For
`temperature` it is the range formula; otherwise the override when provided,
else the default 0.5. Stated only to compare with the code's
`tolerancia_sensor_dispatch`. -/
def sensorToleranceSpec (rango_min rango_max : ℝ) (sensor_type : String)
    (override : Option ℝ) : ℝ :=
  if sensor_type = "temperatura" then 0.15 + 0.0020 * max |rango_min| |rango_max|
  else override.getD 0.5

/-- `incertidumbre_combinada` (src/app.py line 38):
`math.sqrt(desviacion_estandar**2 + incertidumbre_patron**2)`, NaN when the
standard deviation is NaN. -/
def incertidumbre_combinada_met (errores : List ℝ) (incertidumbre_patron : ℝ) : Option ℝ :=
  (nstd errores 1).map (fun d => Real.sqrt (d ^ 2 + incertidumbre_patron ^ 2))

/-- `incertidumbre_expandida` (src/app.py line 40): coverage factor k = 2. -/
def incertidumbre_expandida_met (errores : List ℝ) (incertidumbre_patron : ℝ) : Option ℝ :=
  (incertidumbre_combinada_met errores incertidumbre_patron).map (fun c => 2 * c)

/-- The metrological span (src/app.py line 48): `abs(rango_max - rango_min)`,
an absolute difference, unlike the normative path. -/
def span_met (rango_min rango_max : ℝ) : ℝ := |rango_max - rango_min|

/-- `tolerancia_porcentaje` (src/app.py line 49):
`(incertidumbre_expandida / span) * 100`. Python would raise
ZeroDivisionError when the span is zero; every claim here assumes
`rango_min ≠ rango_max`, so that branch is never exercised. -/
def tolerancia_porcentaje_met (errores : List ℝ)
    (incertidumbre_patron rango_min rango_max : ℝ) : Option ℝ :=
  (incertidumbre_expandida_met errores incertidumbre_patron).map
    (fun e => e / span_met rango_min rango_max * 100)

/-- `tolerancia_total` (src/app.py lines 59-64): quadrature combination of
the four component tolerances. -/
def tolerancia_total_calc (sensor transmisor plc pantalla : ℝ) : ℝ :=
  Real.sqrt (sensor ^ 2 + transmisor ^ 2 + plc ^ 2 + pantalla ^ 2)

/-- The dictionary returned by `calcular_tolerancia_metrologica`
(src/app.py lines 66-71). NaN-able entries are `Option ℝ`. -/
structure ResultadosMetrologicos where
  tolerancia_estricta : Option ℝ
  tolerancia_practica : Option ℝ
  tolerancia_porcentaje : Option ℝ
  tolerancia_total : ℝ

/-- `calcular_tolerancia_metrologica` (src/app.py lines 15-71). -/
def calcular_tolerancia_metrologica (errores : List ℝ) (incertidumbre_patron : ℝ)
    (rango_calibrado : ℝ × ℝ) (tolerancia_transmisor tolerancia_plc tolerancia_pantalla : ℝ)
    (sensor_type : String) : ResultadosMetrologicos :=
  let rango_min := rango_calibrado.1
  let rango_max := rango_calibrado.2
  let incertidumbre_expandida := incertidumbre_expandida_met errores incertidumbre_patron
  let tolerancia_estricta := incertidumbre_expandida
  let tolerancia_practica := incertidumbre_expandida.map (fun e => round2 (e + 0.05))
  let tolerancia_porcentaje :=
    tolerancia_porcentaje_met errores incertidumbre_patron rango_min rango_max
  let tolerancia_sensor := tolerancia_sensor_dispatch sensor_type rango_min rango_max
  let tolerancia_total :=
    tolerancia_total_calc tolerancia_sensor tolerancia_transmisor tolerancia_plc
      tolerancia_pantalla
  { tolerancia_estricta := tolerancia_estricta.map round4
    tolerancia_practica := tolerancia_practica
    tolerancia_porcentaje := tolerancia_porcentaje.map round2
    tolerancia_total := round2 tolerancia_total }

/-! ### Normative calculator (src/app.py lines 74-197) -/

/-- One row of `valor_medido` and `error`, as the DataFrame holds it. -/
structure Registro where
  valor_medido : ℝ
  error : ℝ

/-- One entry of the `parametros_normativos` table (src/app.py lines
86-123): the three precision-class percentages plus the two tolerance
factors. -/
structure ParametrosNormativos where
  alta : ℝ
  estandar : ℝ
  baja : ℝ
  factor_base_tolerancia : ℝ
  factor_compensacion : ℝ

/-- The `'temperatura'` table entry. -/
def params_temperatura : ParametrosNormativos := ⟨0.1, 0.5, 1.0, 0.15, 0.0020⟩

/-- The `'presion'` table entry. -/
def params_presion : ParametrosNormativos := ⟨0.1, 0.5, 1.0, 0.20, 0.0025⟩

/-- The `'caudal'` table entry. -/
def params_caudal : ParametrosNormativos := ⟨0.2, 0.5, 1.0, 0.25, 0.0030⟩

/-- The `'velocidad'` table entry. -/
def params_velocidad : ParametrosNormativos := ⟨0.1, 0.5, 1.0, 0.18, 0.0015⟩

/-- The `parametros_normativos` dictionary as a partial lookup. -/
def parametros_normativos (tipo : String) : Option ParametrosNormativos :=
  if tipo = "temperatura" then some params_temperatura
  else if tipo = "presion" then some params_presion
  else if tipo = "caudal" then some params_caudal
  else if tipo = "velocidad" then some params_velocidad
  else none

/-- `self.parametros_normativos.get(self.tipo_sensor, self.parametros_normativos['temperatura'])`
(src/app.py line 148): the defensive fallback to the temperature entry. -/
def paramsFor (tipo : String) : ParametrosNormativos :=
  (parametros_normativos tipo).getD params_temperatura

/-- `params['clase_precision'].get(clase_precision, 0.5)` (src/app.py
line 152): the defensive fallback to 0.5 for an unrecognized class. -/
def clase_precision_lookup (p : ParametrosNormativos) (clase : String) : ℝ :=
  if clase = "alta" then p.alta
  else if clase = "estandar" then p.estandar
  else if clase = "baja" then p.baja
  else 0.5

/-- `rango_medicion = rango_max - rango_min` (src/app.py line 150): a SIGNED
difference, unlike the metrological `span_met`. -/
def rango_medicion (rango : ℝ × ℝ) : ℝ := rango.2 - rango.1

/-- `factor_compensacion = params['factor_compensacion'] * max(abs(rango_min), abs(rango_max))`
(src/app.py line 154). -/
def compensacion (p : ParametrosNormativos) (rango : ℝ × ℝ) : ℝ :=
  p.factor_compensacion * max |rango.1| |rango.2|

/-- `tolerancia_transmision = factor_base + factor_compensacion`
(src/app.py line 156). -/
def tolerancia_transmision_calc (p : ParametrosNormativos) (rango : ℝ × ℝ) : ℝ :=
  p.factor_base_tolerancia + compensacion p rango

/-- `error_maximo_permitido_unidades = (precision_base / 100) * rango_medicion`
(src/app.py line 159). -/
def error_maximo_permitido_unidades_calc (p : ParametrosNormativos) (clase : String)
    (rango : ℝ × ℝ) : ℝ :=
  clase_precision_lookup p clase / 100 * rango_medicion rango

/-- `porcentaje_tolerancia = (tolerancia_transmision / rango_medicion) * 100`
(src/app.py line 160). -/
def porcentaje_tolerancia_calc (p : ParametrosNormativos) (rango : ℝ × ℝ) : ℝ :=
  tolerancia_transmision_calc p rango / rango_medicion rango * 100

/-- The `detalles` sub-dictionary (src/app.py lines 181-195). -/
structure DetallesNormativos where
  puntos_calibracion : List ℝ
  errores : List ℝ
  error_medio : ℝ
  error_maximo : ℝ
  desviacion_estandar : ℝ
  precision_base : ℝ
  factor_base : ℝ
  factor_compensacion : ℝ
  rango_medicion : ℝ
  error_maximo_permitido_unidades : ℝ
  porcentaje_tolerancia : ℝ

/-- The dictionary returned by `calcular_tolerancia_transmision`
(src/app.py lines 165-179). The `rango_calibrado` f-string is modelled by
its content, the two bounds together with the units label. -/
structure ResultadosNormativos where
  tipo_sensor : String
  unidades : String
  rango_calibrado : ℝ × ℝ × String
  clase_precision : String
  error_medio : ℝ
  error_maximo_medido : ℝ
  error_maximo_permitido_porcentual : ℝ
  error_maximo_permitido_unidades : ℝ
  desviacion_estandar_error : ℝ
  tolerancia_transmision : ℝ
  porcentaje_tolerancia : ℝ
  incertidumbre_combinada : ℝ
  incertidumbre_expandida : ℝ
  detalles : Option DetallesNormativos

/-- `SensorCalibrationAnalyzer.calcular_tolerancia_transmision`
(src/app.py lines 125-197); `tipo_sensor` and `unidades` are the fields set
by `__init__`. Raising `ValueError` on an empty sample is modelled by
`Except.error` carrying the exception message. -/
def calcular_tolerancia_transmision (tipo_sensor unidades : String) (rango_calibrado : ℝ × ℝ)
    (datos_calibracion : List Registro) (clase_precision : String) (mostrar_detalles : Bool) :
    Except String ResultadosNormativos :=
  if datos_calibracion.isEmpty then
    .error "No se proporcionaron datos de calibración"
  else
    let puntos_calibracion := datos_calibracion.map Registro.valor_medido
    let errores := datos_calibracion.map Registro.error
    let error_medio := mean errores
    let error_maximo := maxAbs errores
    let desviacion_estandar := np_std errores
    let params := paramsFor tipo_sensor
    let rango_min := rango_calibrado.1
    let rango_max := rango_calibrado.2
    let rango_med := rango_medicion rango_calibrado
    let precision_base := clase_precision_lookup params clase_precision
    let factor_base := params.factor_base_tolerancia
    let factor_comp := compensacion params rango_calibrado
    let tolerancia_transmision := tolerancia_transmision_calc params rango_calibrado
    let emp_unidades := error_maximo_permitido_unidades_calc params clase_precision rango_calibrado
    let porcentaje_tolerancia := porcentaje_tolerancia_calc params rango_calibrado
    let incertidumbre_combinada := Real.sqrt (desviacion_estandar ^ 2)
    let incertidumbre_expandida := 2 * incertidumbre_combinada
    .ok {
      tipo_sensor := tipo_sensor
      unidades := unidades
      rango_calibrado := (rango_min, rango_max, unidades)
      clase_precision := clase_precision
      error_medio := round4 error_medio
      error_maximo_medido := round4 error_maximo
      error_maximo_permitido_porcentual := round2 precision_base
      error_maximo_permitido_unidades := round4 emp_unidades
      desviacion_estandar_error := round4 desviacion_estandar
      tolerancia_transmision := round4 tolerancia_transmision
      porcentaje_tolerancia := round2 porcentaje_tolerancia
      incertidumbre_combinada := round4 incertidumbre_combinada
      incertidumbre_expandida := round4 incertidumbre_expandida
      detalles :=
        if mostrar_detalles then
          some {
            puntos_calibracion := puntos_calibracion
            errores := errores
            error_medio := round4 error_medio
            error_maximo := round4 error_maximo
            desviacion_estandar := round4 desviacion_estandar
            precision_base := precision_base
            factor_base := factor_base
            factor_compensacion := factor_comp
            rango_medicion := rango_med
            error_maximo_permitido_unidades := round4 emp_unidades
            porcentaje_tolerancia := round2 porcentaje_tolerancia }
        else none }

end

/-! ### Helper lemmas -/

lemma round2_eq_of (x : ℝ) (z : ℤ) (h1 : (z : ℝ) ≤ x * 100 + 1 / 2)
    (h2 : x * 100 + 1 / 2 < z + 1) : round2 x = (z : ℝ) / 100 := by
  have hz : round (x * 100) = z := by
    rw [round_eq]
    exact Int.floor_eq_iff.mpr ⟨h1, by linarith⟩
  rw [round2, hz]

lemma round4_eq_of (x : ℝ) (z : ℤ) (h1 : (z : ℝ) ≤ x * 10000 + 1 / 2)
    (h2 : x * 10000 + 1 / 2 < z + 1) : round4 x = (z : ℝ) / 10000 := by
  have hz : round (x * 10000) = z := by
    rw [round_eq]
    exact Int.floor_eq_iff.mpr ⟨h1, by linarith⟩
  rw [round4, hz]

lemma paramsFor_cases (tipo : String) :
    paramsFor tipo = params_temperatura ∨ paramsFor tipo = params_presion ∨
    paramsFor tipo = params_caudal ∨ paramsFor tipo = params_velocidad := by
  unfold paramsFor parametros_normativos
  split_ifs <;> simp

lemma paramsFor_estandar (tipo : String) : (paramsFor tipo).estandar = 0.5 := by
  rcases paramsFor_cases tipo with h | h | h | h <;>
    rw [h] <;> norm_num [params_temperatura, params_presion, params_caudal, params_velocidad]

lemma paramsFor_factor_base_pos (tipo : String) :
    0 < (paramsFor tipo).factor_base_tolerancia := by
  rcases paramsFor_cases tipo with h | h | h | h <;>
    rw [h] <;> norm_num [params_temperatura, params_presion, params_caudal, params_velocidad]

lemma paramsFor_factor_comp_pos (tipo : String) :
    0 < (paramsFor tipo).factor_compensacion := by
  rcases paramsFor_cases tipo with h | h | h | h <;>
    rw [h] <;> norm_num [params_temperatura, params_presion, params_caudal, params_velocidad]

lemma clase_lookup_pos (tipo clase : String) :
    0 < clase_precision_lookup (paramsFor tipo) clase := by
  unfold clase_precision_lookup
  rcases paramsFor_cases tipo with h | h | h | h <;> rw [h] <;> split_ifs <;>
    norm_num [params_temperatura, params_presion, params_caudal, params_velocidad]

lemma tolerancia_transmision_pos (tipo : String) (rango : ℝ × ℝ) :
    0 < tolerancia_transmision_calc (paramsFor tipo) rango := by
  unfold tolerancia_transmision_calc compensacion
  have h1 := paramsFor_factor_base_pos tipo
  have h2 := paramsFor_factor_comp_pos tipo
  have h3 : (0 : ℝ) ≤ max |rango.1| |rango.2| := le_max_of_le_left (abs_nonneg _)
  nlinarith

lemma calc_ok_of_nonempty (tipo unidades : String) (rango : ℝ × ℝ) (datos : List Registro)
    (clase : String) (mostrar : Bool) (hd : datos ≠ []) :
    ∃ r, calcular_tolerancia_transmision tipo unidades rango datos clase mostrar = .ok r := by
  unfold calcular_tolerancia_transmision
  rw [if_neg (by simpa using hd)]
  exact ⟨_, rfl⟩

/-! ### Claims -/

/-- C1: for the sample with errors [0.2, -0.1], standard uncertainty 0.1
and range (0, 100), the metrological calculator's sample standard deviation
(N-1 denominator) is sqrt(0.045) ≈ 0.2121, the combined uncertainty is
sqrt(0.045 + 0.1^2) = sqrt(0.055) ≈ 0.2345, the expanded uncertainty is
2 * sqrt(0.055) ≈ 0.4690, and the practical tolerance
round(expanded + 0.05, 2) is exactly 0.52, whatever the component
tolerances and sensor type. -/
theorem c1_valores_metrologicos :
    nstd [(0.2 : ℝ), -0.1] 1 = some (Real.sqrt 0.045) ∧
    |Real.sqrt 0.045 - 0.2121| < 0.0001 ∧
    incertidumbre_combinada_met [(0.2 : ℝ), -0.1] 0.1 = some (Real.sqrt 0.055) ∧
    |Real.sqrt 0.055 - 0.2345| < 0.0001 ∧
    incertidumbre_expandida_met [(0.2 : ℝ), -0.1] 0.1 = some (2 * Real.sqrt 0.055) ∧
    |2 * Real.sqrt 0.055 - 0.4690| < 0.0001 ∧
    ∀ tolerancia_transmisor tolerancia_plc tolerancia_pantalla : ℝ, ∀ tipo : String,
      (calcular_tolerancia_metrologica [(0.2 : ℝ), -0.1] 0.1 (0, 100) tolerancia_transmisor
          tolerancia_plc tolerancia_pantalla tipo).tolerancia_practica = some 0.52 := by
  have hmean : mean [(0.2 : ℝ), -0.1] = 0.05 := by norm_num [mean]
  have hS : sumSqDev [(0.2 : ℝ), -0.1] = 0.045 := by
    unfold sumSqDev
    simp only [List.map_cons, List.map_nil, List.sum_cons, List.sum_nil]
    rw [hmean]
    norm_num
  have h1 : nstd [(0.2 : ℝ), -0.1] 1 = some (Real.sqrt 0.045) := by
    unfold nstd
    rw [if_neg (by norm_num)]
    congr 1
    rw [hS]
    norm_num
  have h045 : Real.sqrt 0.045 ^ 2 = 0.045 := Real.sq_sqrt (by norm_num)
  have h045nn := Real.sqrt_nonneg (0.045 : ℝ)
  have hb1 : 0.2120 < Real.sqrt 0.045 := by nlinarith
  have hb2 : Real.sqrt 0.045 < 0.2122 := by nlinarith
  have h2 : incertidumbre_combinada_met [(0.2 : ℝ), -0.1] 0.1 = some (Real.sqrt 0.055) := by
    unfold incertidumbre_combinada_met
    rw [h1, Option.map_some']
    congr 1
    rw [h045, show (0.045 : ℝ) + 0.1 ^ 2 = 0.055 by norm_num]
  have h055 : Real.sqrt 0.055 ^ 2 = 0.055 := Real.sq_sqrt (by norm_num)
  have h055nn := Real.sqrt_nonneg (0.055 : ℝ)
  have hc1 : 0.23445 < Real.sqrt 0.055 := by nlinarith
  have hc2 : Real.sqrt 0.055 < 0.23455 := by nlinarith
  have h3 : incertidumbre_expandida_met [(0.2 : ℝ), -0.1] 0.1 =
      some (2 * Real.sqrt 0.055) := by
    unfold incertidumbre_expandida_met
    rw [h2, Option.map_some']
  refine ⟨h1, abs_lt.mpr ⟨by nlinarith, by nlinarith⟩, h2,
    abs_lt.mpr ⟨by nlinarith, by nlinarith⟩, h3,
    abs_lt.mpr ⟨by nlinarith, by nlinarith⟩, ?_⟩
  intro tolerancia_transmisor tolerancia_plc tolerancia_pantalla tipo
  simp only [calcular_tolerancia_metrologica, h3, Option.map_some']
  congr 1
  rw [round2_eq_of (2 * Real.sqrt 0.055 + 0.05) 52 (by nlinarith) (by nlinarith)]
  norm_num

/-- C2: for sensor type temperature, range (0, 100), precision class
standard, and any non-empty sample, the normative calculator yields
precisionBase = 0.5, compensation = 0.0020 * 100 = 0.20,
transmissionTolerance = 0.15 + 0.20 = 0.35, and
tolerancePercent = (0.35 / 100) * 100 = 0.35. -/
theorem c2_valores_normativos (unidades : String) (datos : List Registro)
    (hd : datos ≠ []) (mostrar : Bool) :
    clase_precision_lookup (paramsFor "temperatura") "estandar" = 0.5 ∧
    compensacion (paramsFor "temperatura") (0, 100) = 0.20 ∧
    tolerancia_transmision_calc (paramsFor "temperatura") (0, 100) = 0.35 ∧
    porcentaje_tolerancia_calc (paramsFor "temperatura") (0, 100) = 0.35 ∧
    ∃ r, calcular_tolerancia_transmision "temperatura" unidades (0, 100) datos "estandar"
        mostrar = .ok r ∧
      r.error_maximo_permitido_porcentual = 0.5 ∧
      r.tolerancia_transmision = 0.35 ∧
      r.porcentaje_tolerancia = 0.35 := by
  have hp : paramsFor "temperatura" = params_temperatura := by
    unfold paramsFor parametros_normativos
    simp
  have hlook : clase_precision_lookup (paramsFor "temperatura") "estandar" = 0.5 := by
    rw [hp]
    unfold clase_precision_lookup
    rw [if_neg (by decide), if_pos rfl]
    norm_num [params_temperatura]
  have hcomp : compensacion (paramsFor "temperatura") (0, 100) = 0.20 := by
    rw [hp]
    norm_num [compensacion, params_temperatura]
  have htol : tolerancia_transmision_calc (paramsFor "temperatura") (0, 100) = 0.35 := by
    rw [tolerancia_transmision_calc, hcomp, hp]
    norm_num [params_temperatura]
  have hporc : porcentaje_tolerancia_calc (paramsFor "temperatura") (0, 100) = 0.35 := by
    rw [porcentaje_tolerancia_calc, htol]
    norm_num [rango_medicion]
  refine ⟨hlook, hcomp, htol, hporc, ?_⟩
  unfold calcular_tolerancia_transmision
  rw [if_neg (by simpa using hd)]
  refine ⟨_, rfl, ?_, ?_, ?_⟩
  · show round2 (clase_precision_lookup (paramsFor "temperatura") "estandar") = 0.5
    rw [hlook, round2_eq_of 0.5 50 (by norm_num) (by norm_num)]
    norm_num
  · show round4 (tolerancia_transmision_calc (paramsFor "temperatura") (0, 100)) = 0.35
    rw [htol, round4_eq_of 0.35 3500 (by norm_num) (by norm_num)]
    norm_num
  · show round2 (porcentaje_tolerancia_calc (paramsFor "temperatura") (0, 100)) = 0.35
    rw [hporc, round2_eq_of 0.35 35 (by norm_num) (by norm_num)]
    norm_num

/-- C2 witness: the round-trip values at the concrete sample
[(25.0, 0.2), (30.0, -0.1)] of the claim. -/
theorem c2_valores_normativos_testigo :
    clase_precision_lookup (paramsFor "temperatura") "estandar" = 0.5 ∧
    compensacion (paramsFor "temperatura") (0, 100) = 0.20 ∧
    tolerancia_transmision_calc (paramsFor "temperatura") (0, 100) = 0.35 ∧
    porcentaje_tolerancia_calc (paramsFor "temperatura") (0, 100) = 0.35 ∧
    ∃ r, calcular_tolerancia_transmision "temperatura" "°C" (0, 100)
        [⟨25, 0.2⟩, ⟨30, -0.1⟩] "estandar" false = .ok r ∧
      r.error_maximo_permitido_porcentual = 0.5 ∧
      r.tolerancia_transmision = 0.35 ∧
      r.porcentaje_tolerancia = 0.35 :=
  c2_valores_normativos "°C" [⟨25, 0.2⟩, ⟨30, -0.1⟩] (by simp) false

/-- C3: the normative calculator raises exactly on an empty sample: any
non-empty sample (with a non-degenerate range) yields a result, and the
empty sample always yields the "No se proporcionaron datos de calibración"
error. -/
theorem c3_muestra_vacia (tipo unidades : String) (rango : ℝ × ℝ) (datos : List Registro)
    (clase : String) (mostrar : Bool) :
    (rango.1 ≠ rango.2 → datos ≠ [] →
      ∃ r, calcular_tolerancia_transmision tipo unidades rango datos clase mostrar = .ok r) ∧
    (datos = [] →
      calcular_tolerancia_transmision tipo unidades rango datos clase mostrar =
        .error "No se proporcionaron datos de calibración") := by
  constructor
  · intro _ hd
    exact calc_ok_of_nonempty tipo unidades rango datos clase mostrar hd
  · intro hd
    subst hd
    rfl

/-- C3 witness: a concrete non-empty sample yields a result and the empty
sample yields the error. -/
theorem c3_muestra_vacia_testigo :
    (∃ r, calcular_tolerancia_transmision "temperatura" "°C" (0, 100) [⟨25, 0.2⟩]
        "estandar" false = .ok r) ∧
    calcular_tolerancia_transmision "temperatura" "°C" (0, 100) [] "estandar" false =
      .error "No se proporcionaron datos de calibración" :=
  ⟨(c3_muestra_vacia "temperatura" "°C" (0, 100) [⟨25, 0.2⟩] "estandar" false).1
      (by norm_num) (by simp),
    (c3_muestra_vacia "temperatura" "°C" (0, 100) [] "estandar" false).2 rfl⟩

/-- C4 counterexample: the claim says a provided sensorTolerance override is
returned for non-temperature sensor types, but the code has no override
parameter and always uses 0.5; with override 0.7 for a pressure sensor the
spec's contract and the code disagree. -/
theorem c4_contraejemplo :
    sensorToleranceSpec 0 100 "presion" (some 0.7) = 0.7 ∧
    tolerancia_sensor_dispatch "presion" 0 100 = 0.5 ∧
    tolerancia_sensor_dispatch "presion" 0 100 ≠ sensorToleranceSpec 0 100 "presion" (some 0.7) := by
  have hs : sensorToleranceSpec 0 100 "presion" (some 0.7) = 0.7 := by
    unfold sensorToleranceSpec
    rw [if_neg (by decide)]
    rfl
  have hc : tolerancia_sensor_dispatch "presion" 0 100 = 0.5 := by
    unfold tolerancia_sensor_dispatch
    rw [if_neg (by decide)]
  refine ⟨hs, hc, ?_⟩
  rw [hs, hc]
  norm_num

/-- C4 (amended): the sensor-tolerance dispatch returns
0.15 + 0.0020 * max(abs(min), abs(max)) for temperature and the fixed
default 0.5 for every other sensor type; no override exists, which matches
the spec contract only when no override is supplied. -/
theorem c4_tolerancia_sensor (tipo : String) (rango_min rango_max : ℝ) :
    (tipo = "temperatura" →
      tolerancia_sensor_dispatch tipo rango_min rango_max =
        0.15 + 0.0020 * max |rango_min| |rango_max|) ∧
    (tipo ≠ "temperatura" → tolerancia_sensor_dispatch tipo rango_min rango_max = 0.5) ∧
    tolerancia_sensor_dispatch tipo rango_min rango_max =
      sensorToleranceSpec rango_min rango_max tipo none := by
  refine ⟨?_, ?_, ?_⟩
  · intro h
    rw [tolerancia_sensor_dispatch, if_pos h, calcular_tolerancia_sensor]
  · intro h
    rw [tolerancia_sensor_dispatch, if_neg h]
  · unfold tolerancia_sensor_dispatch sensorToleranceSpec calcular_tolerancia_sensor
    split_ifs <;> rfl

/-- C4 witness: the dispatch evaluated on both branches at concrete
ranges. -/
theorem c4_tolerancia_sensor_testigo :
    tolerancia_sensor_dispatch "temperatura" 0 100 = 0.15 + 0.0020 * max |(0 : ℝ)| |(100 : ℝ)| ∧
    tolerancia_sensor_dispatch "presion" 0 100 = 0.5 :=
  ⟨(c4_tolerancia_sensor "temperatura" 0 100).1 rfl,
    (c4_tolerancia_sensor "presion" 0 100).2.1 (by decide)⟩

lemma list_sum_eq_zero_iff (l : List ℝ) (h : ∀ x ∈ l, 0 ≤ x) :
    l.sum = 0 ↔ ∀ x ∈ l, x = 0 := by
  induction l with
  | nil => simp
  | cons a t ih =>
    have ha : 0 ≤ a := h a (by simp)
    have ht : ∀ x ∈ t, 0 ≤ x := fun x hx => h x (by simp [hx])
    have hts : 0 ≤ t.sum := List.sum_nonneg ht
    simp only [List.sum_cons, List.mem_cons]
    constructor
    · intro h0
      have ha0 : a = 0 := by linarith
      have hs0 : t.sum = 0 := by linarith
      intro x hx
      rcases hx with rfl | hx
      · exact ha0
      · exact (ih ht).mp hs0 x hx
    · intro hall
      have h1 : a = 0 := hall a (Or.inl rfl)
      have h2 : t.sum = 0 := (ih ht).mpr fun x hx => hall x (Or.inr hx)
      rw [h1, h2, add_zero]

lemma list_sum_of_all_eq (l : List ℝ) (c : ℝ) (h : ∀ x ∈ l, x = c) :
    l.sum = l.length * c := by
  induction l with
  | nil => simp
  | cons a t ih =>
    simp only [List.sum_cons, List.length_cons]
    rw [h a (by simp), ih fun x hx => h x (by simp [hx])]
    push_cast
    ring

lemma sumSqDev_nonneg (l : List ℝ) : 0 ≤ sumSqDev l := by
  apply List.sum_nonneg
  intro x hx
  obtain ⟨a, _, rfl⟩ := List.mem_map.mp hx
  positivity

lemma sumSqDev_eq_zero_iff (l : List ℝ) : sumSqDev l = 0 ↔ ∀ x ∈ l, x = mean l := by
  unfold sumSqDev
  rw [list_sum_eq_zero_iff _ (by
    intro x hx
    obtain ⟨a, _, rfl⟩ := List.mem_map.mp hx
    positivity)]
  constructor
  · intro h x hx
    have h2 := h ((x - mean l) ^ 2) (List.mem_map_of_mem _ hx)
    have h3 : x - mean l = 0 := by
      nlinarith [h2]
    linarith
  · intro h x hx
    obtain ⟨a, ha, rfl⟩ := List.mem_map.mp hx
    rw [h a ha]
    ring

lemma all_eq_mean_iff (l : List ℝ) (hl : l ≠ []) :
    (∀ x ∈ l, x = mean l) ↔ ∀ x ∈ l, ∀ y ∈ l, x = y := by
  constructor
  · intro h x hx y hy
    rw [h x hx, h y hy]
  · intro h x hx
    have hsum : l.sum = l.length * x := list_sum_of_all_eq l x fun y hy => h y hy x hx
    have hlen : (0 : ℝ) < (l.length : ℝ) := by
      exact_mod_cast List.length_pos.mpr hl
    unfold mean
    rw [hsum]
    field_simp

/-- C5: for every sample of at least two errors, the metrological path's
standard deviation (denominator N-1) equals the normative path's standard
deviation (denominator N) exactly when all errors in the sample are
identical; with nonzero variance the two always differ. -/
theorem c5_desviacion_iff (l : List ℝ) (h : 2 ≤ l.length) :
    nstd l 1 = some (np_std l) ↔ ∀ x ∈ l, ∀ y ∈ l, x = y := by
  have hl : l ≠ [] := by
    intro e
    rw [e] at h
    simp at h
  have hn2 : (2 : ℝ) ≤ (l.length : ℝ) := by exact_mod_cast h
  have hcast : ((l.length - 1 : ℕ) : ℝ) = (l.length : ℝ) - 1 := by
    have h1 : 1 ≤ l.length := by omega
    push_cast [h1]
    ring
  have hS : 0 ≤ sumSqDev l := sumSqDev_nonneg l
  have hn1 : (0 : ℝ) < (l.length : ℝ) - 1 := by linarith
  have hn0 : (0 : ℝ) < (l.length : ℝ) := by linarith
  unfold nstd np_std
  rw [if_neg (by omega), Option.some_inj, hcast,
    Real.sqrt_inj (div_nonneg hS hn1.le) (div_nonneg hS hn0.le)]
  have key : sumSqDev l / ((l.length : ℝ) - 1) = sumSqDev l / (l.length : ℝ) ↔
      sumSqDev l = 0 := by
    rw [div_eq_div_iff hn1.ne' hn0.ne']
    constructor
    · intro he
      nlinarith
    · intro he
      rw [he]
      ring
  rw [key, sumSqDev_eq_zero_iff]
  exact all_eq_mean_iff l hl

/-- C5 witness: the equivalence evaluated at the concrete two-point sample
[1, 2]. -/
theorem c5_desviacion_iff_testigo :
    nstd [(1 : ℝ), 2] 1 = some (np_std [(1 : ℝ), 2]) ↔
      ∀ x ∈ [(1 : ℝ), 2], ∀ y ∈ [(1 : ℝ), 2], x = y :=
  c5_desviacion_iff [(1 : ℝ), 2] (by norm_num)

/-- C6: the quadrature total tolerance is monotonically non-decreasing in
each of its four non-negative inputs independently, and equals any single
non-negative input when the other three are 0. -/
theorem c6_tolerancia_total (a b c d a2 b2 c2 d2 : ℝ) :
    (0 ≤ a → a ≤ a2 →
      tolerancia_total_calc a b c d ≤ tolerancia_total_calc a2 b c d) ∧
    (0 ≤ b → b ≤ b2 →
      tolerancia_total_calc a b c d ≤ tolerancia_total_calc a b2 c d) ∧
    (0 ≤ c → c ≤ c2 →
      tolerancia_total_calc a b c d ≤ tolerancia_total_calc a b c2 d) ∧
    (0 ≤ d → d ≤ d2 →
      tolerancia_total_calc a b c d ≤ tolerancia_total_calc a b c d2) ∧
    (0 ≤ a → tolerancia_total_calc a 0 0 0 = a) ∧
    (0 ≤ b → tolerancia_total_calc 0 b 0 0 = b) ∧
    (0 ≤ c → tolerancia_total_calc 0 0 c 0 = c) ∧
    (0 ≤ d → tolerancia_total_calc 0 0 0 d = d) := by
  unfold tolerancia_total_calc
  refine ⟨?_, ?_, ?_, ?_, ?_, ?_, ?_, ?_⟩ <;> intro h1
  · intro h2
    exact Real.sqrt_le_sqrt (by nlinarith)
  · intro h2
    exact Real.sqrt_le_sqrt (by nlinarith)
  · intro h2
    exact Real.sqrt_le_sqrt (by nlinarith)
  · intro h2
    exact Real.sqrt_le_sqrt (by nlinarith)
  · rw [show a ^ 2 + (0 : ℝ) ^ 2 + 0 ^ 2 + 0 ^ 2 = a ^ 2 by ring]
    exact Real.sqrt_sq h1
  · rw [show (0 : ℝ) ^ 2 + b ^ 2 + 0 ^ 2 + 0 ^ 2 = b ^ 2 by ring]
    exact Real.sqrt_sq h1
  · rw [show (0 : ℝ) ^ 2 + 0 ^ 2 + c ^ 2 + 0 ^ 2 = c ^ 2 by ring]
    exact Real.sqrt_sq h1
  · rw [show (0 : ℝ) ^ 2 + 0 ^ 2 + 0 ^ 2 + d ^ 2 = d ^ 2 by ring]
    exact Real.sqrt_sq h1

/-- C6 witness: monotonicity in the first argument at 1 ≤ 2 and the
single-component identity at 3, with concrete values. -/
theorem c6_tolerancia_total_testigo :
    tolerancia_total_calc 1 5 6 7 ≤ tolerancia_total_calc 2 5 6 7 ∧
    tolerancia_total_calc 3 0 0 0 = 3 :=
  ⟨(c6_tolerancia_total 1 5 6 7 2 0 0 0).1 (by norm_num) (by norm_num),
    ((c6_tolerancia_total 3 0 0 0 0 0 0 0).2.2.2.2).1 (by norm_num)⟩

lemma paramsFor_unrecognized (tipo : String)
    (h : tipo ∉ (["temperatura", "presion", "caudal", "velocidad"] : List String)) :
    paramsFor tipo = paramsFor "temperatura" := by
  simp only [List.mem_cons, List.not_mem_nil, or_false, not_or] at h
  obtain ⟨h1, h2, h3, h4⟩ := h
  unfold paramsFor parametros_normativos
  rw [if_neg h1, if_neg h2, if_neg h3, if_neg h4]
  simp

/-- C7 counterexample: with an unrecognized sensor type the normative
calculator does NOT produce the very same result as with sensor type
temperature — the returned record echoes the unrecognized `tipo_sensor`
label, so the two results differ. -/
theorem c7_contraejemplo :
    calcular_tolerancia_transmision "foo" "°C" (0, 100) [⟨25, 0.2⟩] "estandar" false ≠
      calcular_tolerancia_transmision "temperatura" "°C" (0, 100) [⟨25, 0.2⟩]
        "estandar" false := by
  intro h
  unfold calcular_tolerancia_transmision at h
  rw [if_neg (by simp), if_neg (by simp)] at h
  have h2 := congrArg ResultadosNormativos.tipo_sensor (Except.ok.inj h)
  exact absurd h2 (by decide)

/-- C7 (amended): with an unrecognized sensor type the normative calculator
falls back to the temperature parameter table and produces the same result
as with sensor type temperature except for the echoed `tipo_sensor` label;
an unrecognized precision class uses precisionBase = 0.5, the same value as
precision class standard; neither fallback raises an error. -/
theorem c7_fallback (tipo : String)
    (h : tipo ∉ (["temperatura", "presion", "caudal", "velocidad"] : List String))
    (unidades : String) (rango : ℝ × ℝ) (datos : List Registro) (clase : String)
    (mostrar : Bool) :
    calcular_tolerancia_transmision tipo unidades rango datos clase mostrar =
      Except.map (fun r => { r with tipo_sensor := tipo })
        (calcular_tolerancia_transmision "temperatura" unidades rango datos clase mostrar) ∧
    (datos ≠ [] →
      ∃ r, calcular_tolerancia_transmision tipo unidades rango datos clase mostrar = .ok r) ∧
    (∀ tipo2 clase2 : String, clase2 ∉ (["alta", "estandar", "baja"] : List String) →
      clase_precision_lookup (paramsFor tipo2) clase2 = 0.5 ∧
      clase_precision_lookup (paramsFor tipo2) "estandar" = 0.5) := by
  have hp := paramsFor_unrecognized tipo h
  refine ⟨?_, ?_, ?_⟩
  · unfold calcular_tolerancia_transmision
    by_cases he : datos.isEmpty
    · rw [if_pos he, if_pos he]
      rfl
    · rw [if_neg he, if_neg he, hp]
      rfl
  · intro hd
    exact calc_ok_of_nonempty tipo unidades rango datos clase mostrar hd
  · intro tipo2 clase2 hc
    simp only [List.mem_cons, List.not_mem_nil, or_false, not_or] at hc
    obtain ⟨hc1, hc2, hc3⟩ := hc
    constructor
    · unfold clase_precision_lookup
      rw [if_neg hc1, if_neg hc2, if_neg hc3]
    · unfold clase_precision_lookup
      rw [if_neg (by decide), if_pos rfl]
      exact paramsFor_estandar tipo2

/-- C7 witness: the fallback equations evaluated at the concrete
unrecognized sensor type "foo" and unrecognized precision class "rara". -/
theorem c7_fallback_testigo :
    calcular_tolerancia_transmision "foo" "°C" (0, 100) [⟨25, 0.2⟩] "estandar" false =
      Except.map (fun r => { r with tipo_sensor := "foo" })
        (calcular_tolerancia_transmision "temperatura" "°C" (0, 100) [⟨25, 0.2⟩]
          "estandar" false) ∧
    clase_precision_lookup (paramsFor "temperatura") "rara" = 0.5 :=
  ⟨(c7_fallback "foo" (by decide) "°C" (0, 100) [⟨25, 0.2⟩] "estandar" false).1,
    ((c7_fallback "foo" (by decide) "°C" (0, 100) [⟨25, 0.2⟩] "estandar" false).2.2
      "temperatura" "rara" (by decide)).1⟩

/-- C8: the normative span is the signed difference max - min while the
metrological span is the absolute difference; hence for every range with
min > max the normative tolerance percentage and allowed-error units (as
computed, before output rounding) are negative, while the metrological
tolerance percentage keeps the sign of the expanded uncertainty. -/
theorem c8_span_y_signos :
    (∀ rango : ℝ × ℝ, rango_medicion rango = rango.2 - rango.1) ∧
    (∀ rmin rmax : ℝ, span_met rmin rmax = |rmax - rmin|) ∧
    (∀ tipo clase : String, ∀ rmin rmax : ℝ, rmax < rmin →
      porcentaje_tolerancia_calc (paramsFor tipo) (rmin, rmax) < 0 ∧
      error_maximo_permitido_unidades_calc (paramsFor tipo) clase (rmin, rmax) < 0) ∧
    (∀ errores : List ℝ, ∀ u rmin rmax e p : ℝ, rmax < rmin →
      incertidumbre_expandida_met errores u = some e →
      tolerancia_porcentaje_met errores u rmin rmax = some p →
      (0 < e → 0 < p) ∧ (e = 0 → p = 0) ∧ (e < 0 → p < 0)) := by
  refine ⟨fun _ => rfl, fun _ _ => rfl, ?_, ?_⟩
  · intro tipo clase rmin rmax hlt
    have hmed : rango_medicion (rmin, rmax) < 0 := by
      unfold rango_medicion
      simp only
      linarith
    have htol := tolerancia_transmision_pos tipo (rmin, rmax)
    have hpb := clase_lookup_pos tipo clase
    constructor
    · unfold porcentaje_tolerancia_calc
      exact mul_neg_of_neg_of_pos (div_neg_of_pos_of_neg htol hmed) (by norm_num)
    · unfold error_maximo_permitido_unidades_calc
      exact mul_neg_of_pos_of_neg (div_pos hpb (by norm_num)) hmed
  · intro errores u rmin rmax e p hlt he hp
    unfold tolerancia_porcentaje_met at hp
    rw [he, Option.map_some'] at hp
    have hspan : 0 < span_met rmin rmax := by
      unfold span_met
      rw [abs_pos]
      intro h0
      have := sub_eq_zero.mp h0
      linarith
    have hp2 : p = e / span_met rmin rmax * 100 := (Option.some_inj.mp hp).symm
    subst hp2
    refine ⟨?_, ?_, ?_⟩
    · intro hpos
      exact mul_pos (div_pos hpos hspan) (by norm_num)
    · intro h0
      rw [h0]
      simp
    · intro hneg
      exact mul_neg_of_neg_of_pos (div_neg_of_neg_of_pos hneg hspan) (by norm_num)

/-- C8 witness: the spans and signs evaluated at the inverted range
(min, max) = (100, 0). -/
theorem c8_span_y_signos_testigo :
    porcentaje_tolerancia_calc (paramsFor "temperatura") (100, 0) < 0 ∧
    error_maximo_permitido_unidades_calc (paramsFor "temperatura") "alta" (100, 0) < 0 :=
  c8_span_y_signos.2.2.1 "temperatura" "alta" 100 0 (by norm_num)

/-- C9: the code's parsing behavior at the claim's inputs. The well-formed
text yields the two records in input order; a line that does not split into
two comma-parts makes the loop report the error and stop at that line, and
with no record parsed before it nothing is computed; BUT when records were
already parsed before the bad line they are kept and the app still computes
with the partial sample, contradicting the claim that no partial sample is
ever used. -/
theorem c9_parseo_parcial :
    procesar_datos "25.0,0.2\n30.0,-0.1" =
      .done [⟨⟨250, 1⟩, ⟨2, 1⟩⟩, ⟨⟨300, 1⟩, ⟨-1, 1⟩⟩] false ∧
    procesar_datos "25.0\n" = .done [] true ∧
    computa "25.0\n" = false ∧
    procesar_datos "25.0,0.2\n30.0" = .done [⟨⟨250, 1⟩, ⟨2, 1⟩⟩] true ∧
    computa "25.0,0.2\n30.0" = true := by
  refine ⟨by decide, by decide, by decide, by decide, by decide⟩

/-- C10: the metrological calculator never rejects a single-record sample:
it returns a complete record whose three uncertainty-derived fields are NaN
(modelled `none`) while the total component tolerance is the ordinary real
quadrature value. -/
theorem c10_muestra_unitaria (e incertidumbre_patron rmin rmax : ℝ)
    (tolerancia_transmisor tolerancia_plc tolerancia_pantalla : ℝ) (tipo : String)
    (h : rmin ≠ rmax) :
    (calcular_tolerancia_metrologica [e] incertidumbre_patron (rmin, rmax)
        tolerancia_transmisor tolerancia_plc tolerancia_pantalla tipo).tolerancia_estricta =
      none ∧
    (calcular_tolerancia_metrologica [e] incertidumbre_patron (rmin, rmax)
        tolerancia_transmisor tolerancia_plc tolerancia_pantalla tipo).tolerancia_practica =
      none ∧
    (calcular_tolerancia_metrologica [e] incertidumbre_patron (rmin, rmax)
        tolerancia_transmisor tolerancia_plc tolerancia_pantalla tipo).tolerancia_porcentaje =
      none ∧
    (calcular_tolerancia_metrologica [e] incertidumbre_patron (rmin, rmax)
        tolerancia_transmisor tolerancia_plc tolerancia_pantalla tipo).tolerancia_total =
      round2 (tolerancia_total_calc (tolerancia_sensor_dispatch tipo rmin rmax)
        tolerancia_transmisor tolerancia_plc tolerancia_pantalla) := by
  have hn : nstd [e] 1 = none := by
    unfold nstd
    rw [if_pos (by norm_num)]
  have h1 : incertidumbre_combinada_met [e] incertidumbre_patron = none := by
    unfold incertidumbre_combinada_met
    rw [hn]
    rfl
  have h2 : incertidumbre_expandida_met [e] incertidumbre_patron = none := by
    unfold incertidumbre_expandida_met
    rw [h1]
    rfl
  have h3 : tolerancia_porcentaje_met [e] incertidumbre_patron rmin rmax = none := by
    unfold tolerancia_porcentaje_met
    rw [h2]
    rfl
  refine ⟨?_, ?_, ?_, rfl⟩ <;>
    simp [calcular_tolerancia_metrologica, h2, h3]

/-- C10 witness: the single-record behavior at the concrete error 0.2,
standard uncertainty 0.1, range (0, 100) and the app's default component
tolerances. -/
theorem c10_muestra_unitaria_testigo :
    (calcular_tolerancia_metrologica [(0.2 : ℝ)] 0.1 (0, 100) 0.2 0.1 0.05
        "temperatura").tolerancia_estricta = none ∧
    (calcular_tolerancia_metrologica [(0.2 : ℝ)] 0.1 (0, 100) 0.2 0.1 0.05
        "temperatura").tolerancia_practica = none ∧
    (calcular_tolerancia_metrologica [(0.2 : ℝ)] 0.1 (0, 100) 0.2 0.1 0.05
        "temperatura").tolerancia_porcentaje = none ∧
    (calcular_tolerancia_metrologica [(0.2 : ℝ)] 0.1 (0, 100) 0.2 0.1 0.05
        "temperatura").tolerancia_total =
      round2 (tolerancia_total_calc (tolerancia_sensor_dispatch "temperatura" 0 100)
        0.2 0.1 0.05) :=
  c10_muestra_unitaria 0.2 0.1 0 100 0.2 0.1 0.05 "temperatura" (by norm_num)

end Tolerancias
